import Mathlib

set_option linter.unusedVariables false

/-!
Verification of the cross-process IPC bridge in `src/ipc/server.py`:
a RemotePregel client streaming typed events over a Unix-socket SSE
connection, a checkpointer HTTP service backed by an external in-memory
store, a child-process launcher, and a readiness gate polling two health
endpoints. Every definition below is a shallow embedding of the Python
source (or, where marked, of the spec's description of an external
collaborator whose code is not part of this repository).
-/

/-- JSON values as `orjson.loads` decodes them and `orjson.dumps` /
`OrjsonResponse.render` encode them: null, booleans, numbers (modelled as
integers; no claim here involves fractional values), strings, arrays and
objects (association lists of string keys). -/
inductive Json where
  | null : Json
  | bool : Bool → Json
  | num : Int → Json
  | str : String → Json
  | arr : List Json → Json
  | obj : List (String × Json) → Json

/-- Key lookup in a decoded JSON object, the embedding of `payload["key"]` /
`payload.get("key")` on a Python dict produced by `orjson.loads`. -/
def lookupField : List (String × Json) → String → Option Json
  | [], _ => none
  | (k, v) :: rest, key => if k = key then some v else lookupField rest key

/-- `value["key"]` on a decoded JSON value: a field of an object, `none` when
the key is absent or the value is not an object (in Python a `KeyError` or
`TypeError`, an exception escaping the handler). -/
def Json.getField : Json → String → Option Json
  | .obj fields, key => lookupField fields key
  | _, _ => none

mutual

/-- The bytes `orjson.dumps` produces for a decoded value (compact separators):
a deterministic rendering, so two equal values always serialize to identical
bytes. -/
def render : Json → String
  | .null => "null"
  | .bool true => "true"
  | .bool false => "false"
  | .num n => toString n
  | .str s => "\"" ++ s ++ "\""
  | .arr xs => "[" ++ renderItems xs ++ "]"
  | .obj fs => "\x7b" ++ renderFields fs ++ "\x7d"

/-- Comma-separated rendering of a JSON array's items. -/
def renderItems : List Json → String
  | [] => ""
  | [x] => render x
  | x :: y :: rest => render x ++ "," ++ renderItems (y :: rest)

/-- Comma-separated rendering of a JSON object's fields. -/
def renderFields : List (String × Json) → String
  | [] => ""
  | [(k, v)] => "\"" ++ k ++ "\":" ++ render v
  | (k, v) :: f :: rest => "\"" ++ k ++ "\":" ++ render v ++ "," ++ renderFields (f :: rest)

end

/-- How far a call of `RemotePregel.astream_events` (src/ipc/server.py lines
62-79) gets before any data flows: either the version guard raises
`ValueError("Only v2 of astream_events is supported")` — the spec's
ProtocolVersionError kind — with no connection attempted, or execution
reaches `aconnect_sse`, opening the SSE connection on the graph socket with
the given request path and JSON body. -/
inductive StreamCall where
  | versionError : String → StreamCall
  | connected : String → Json → StreamCall

/-- `RemotePregel.astream_events` up to the point the SSE connection opens:
the body first checks `version != "v2"` and raises before `aconnect_sse`;
otherwise it POSTs to `/graph_id/streamEvents` with the JSON body
holding the input and config. -/
def astream_events (graph_id : String) (input config : Json) (version : String) : StreamCall :=
  if version ≠ "v2" then
    .versionError "Only v2 of astream_events is supported"
  else
    .connected ("/" ++ graph_id ++ "/streamEvents") (.obj [("input", input), ("config", config)])

/-- The tagged union yielded by the SSE decode loop (lines 80-85): each frame
becomes either a `CustomStreamEvent` or a `StandardStreamEvent`, carrying the
decoded frame. -/
inductive StreamEvent where
  | custom : Json → StreamEvent
  | standard : Json → StreamEvent

/-- The Python comparison `event["event"] == "on_custom_event"`: true exactly
when the tag value is the string "on_custom_event" (equality between a
non-string JSON value and a Python str is always False). -/
def isCustomTag : Json → Bool
  | .str s => s == "on_custom_event"
  | _ => false

/-- The per-frame dispatch of the SSE loop (lines 80-85): look up the frame's
`event` field (a missing field raises, yielding no event — `none`), then
yield `CustomStreamEvent(**event)` when the tag equals "on_custom_event" and
`StandardStreamEvent(**event)` for every other tag value. -/
def decodeSseFrame (event : Json) : Option StreamEvent :=
  match event.getField "event" with
  | none => none
  | some tag => if isCustomTag tag then some (.custom event) else some (.standard event)

/-- The result of awaiting one of `RemotePregel`'s capability methods: the
coroutine either returns a value (`returned none` embeds Python's implicit
`return None` from a `pass` body) or raises an exception with a message. -/
inductive CapabilityResult (α : Type) where
  | returned : Option α → CapabilityResult α
  | raised : String → CapabilityResult α

/-- `RemotePregel.get_graph` (lines 87-93): the body is `pass`, so every call
returns None. -/
def get_graph (config : Option Json) (xray : Bool) : CapabilityResult Json :=
  .returned none

/-- `RemotePregel.aget_state` (lines 95-96): the body is `pass`, so every call
returns None. -/
def aget_state (config : Json) : CapabilityResult Json :=
  .returned none

/-- `RemotePregel.aupdate_state` (lines 98-104): the body is `pass`, so every
call returns None. -/
def aupdate_state (config : Json) (values : Json) (as_node : Option String) :
    CapabilityResult Json :=
  .returned none

/-- `RemotePregel.aget_state_history` (lines 106-114): the body is a single
`raise Exception("Not implemented")`, executed before anything else — no
argument is inspected and no network request is issued. -/
def aget_state_history (config : Json) (filter before : Option Json)
    (limit : Option Int) : CapabilityResult (List Json) :=
  .raised "Not implemented"

/-- One iteration of the polling loop in `wait_until_ready` (src/ipc/server.py
lines 188-194). The GET to the graph socket's `/ok` runs first; when it
raises `httpx.HTTPError` the iteration aborts before the checkpointer GET, so
the checkpointer's `/ok` is only reached after the graph's succeeded:
`graphFail` — the graph GET raised; `checkpointerFail` — the graph GET
succeeded, the checkpointer GET raised; `bothOk` — both GETs succeeded. -/
inductive PollOutcome where
  | graphFail : PollOutcome
  | checkpointerFail : PollOutcome
  | bothOk : PollOutcome
deriving Repr, DecidableEq

/-- Whether the GET to the graph socket's `/ok` succeeded in this iteration. -/
def graphOkSucceeded : PollOutcome → Bool
  | .graphFail => false
  | .checkpointerFail => true
  | .bothOk => true

/-- Whether the GET to the checkpointer socket's `/ok` succeeded in this
iteration. -/
def checkpointerOkSucceeded : PollOutcome → Bool
  | .bothOk => true
  | _ => false

/-- `wait_until_ready` (lines 177-196) run along a finite prefix of its poll
iterations: `true` exactly when `ready_event.set()` has executed within that
prefix. The `while True` loop breaks at the first iteration in which both
GETs return; on `httpx.HTTPError` it sleeps 0.1s and retries, and only after
the break does it set the event. -/
def wait_until_ready : List PollOutcome → Bool
  | [] => false
  | .bothOk :: _ => true
  | _ :: rest => wait_until_ready rest

/-- `run_js_process` (lines 120-132): spawns the counterpart runtime and then
`await process.wait()`, whose result — the child's exit status — is discarded.
The coroutine raises nothing whatever the exit code, so a non-zero exit
surfaces no error to `asyncio.gather` in `start_js_loop`. -/
def run_js_process (exit_code : Int) : Except String Unit :=
  .ok ()

/-- What an orchestration session started by `start_js_loop` (lines 199-205)
shows to the outside after the child exited and the given poll iterations
ran: whether any exception propagated out of `asyncio.gather`, and whether the
readiness event was set. -/
structure SessionState where
  errorRaised : Option String
  readySet : Bool
deriving Repr, DecidableEq

/-- `start_js_loop` (lines 199-205) gathers `run_remote_checkpointer` (serves
forever, raises nothing once bound), `run_js_process` and `wait_until_ready`.
`asyncio.gather` without `return_exceptions` propagates only raised
exceptions; a coroutine returning normally leaves the gather waiting on the
rest. The session's observable state is therefore determined by whether
`run_js_process` raised and whether the poll loop has set the event. -/
def start_js_loop (exit_code : Int) (polls : List PollOutcome) : SessionState :=
  { errorRaised :=
      match run_js_process exit_code with
      | .error e => some e
      | .ok _ => none
    readySet := wait_until_ready polls }

/-- The constant `orjson.dumps(\x7b"agent": "./test/graphs/agent.mts:graph"\x7d)`
computed at src/ipc/server.py lines 125-127: the JSON-encoded mapping from the
logical graph name to its entry-point source location. -/
def langserveGraphsValue : String :=
  "\x7b\"agent\":\"./test/graphs/agent.mts:graph\"\x7d"

/-- A process environment, looked at extensionally: each variable name maps to
its value when set. -/
def Env : Type := String → Option String

/-- The child environment built by `run_js_process` (lines 124-129): the
Python dict display evaluates
`\x7b"LANGSERVE_GRAPHS": langserveGraphsValue, **os.environ\x7d`, in which a key
occurring later overrides one occurring earlier — so every variable of
`os.environ` keeps its parent value, and the injected entry survives only for
a key `os.environ` does not hold. -/
def child_env (os_environ : Env) : Env :=
  fun k =>
    match os_environ k with
    | some v => some v
    | none => if k = "LANGSERVE_GRAPHS" then some langserveGraphsValue else none

/-- A parent environment that already sets LANGSERVE_GRAPHS (to "other") and
nothing else; a concrete input for the environment-merge analysis. -/
def parentWithVar : Env :=
  fun k => if k = "LANGSERVE_GRAPHS" then some "other" else none

/-- The empty parent environment: no variable set. -/
def emptyEnv : Env :=
  fun _ => none

/-- Modelled from the spec: the checkpoint store behind the service is
`MemorySaver` from the external `langgraph` package — an external collaborator
(spec section 2: "Consumed, not implemented, by this core") whose code is not
among this repository's sources. Per spec section 3, a stored tuple carries the
thread id it is filed under, the opaque checkpoint payload and its metadata. -/
structure StoreEntry where
  thread_id : String
  checkpoint : Json
  metadata : Json

/-- Modelled from the spec: section 3's Configurable is "a mapping holding at
minimum `thread_id`"; the store addresses history by that key and fails when
it is absent. -/
def threadIdOf (config : Json) : Option String :=
  match config.getField "thread_id" with
  | some (.str s) => some s
  | _ => none

/-- Modelled from the spec: `aput` — "every `put` durably extends the
checkpoint history for its thread" and "returns the config now addressing the
newly written checkpoint" (section 4.1). The store is kept newest-first. -/
def aput (store : List StoreEntry) (thread_id : String) (checkpoint metadata : Json) :
    List StoreEntry × Json :=
  (⟨thread_id, checkpoint, metadata⟩ :: store, .obj [("thread_id", .str thread_id)])

/-- Modelled from the spec: `aget_tuple` returns the newest tuple of the
addressed thread, and "absence of a matching record yields `null`, not an
error" (section 4.1). -/
def aget_tuple (store : List StoreEntry) (thread_id : String) : Option StoreEntry :=
  store.find? (fun e => e.thread_id == thread_id)

/-- Modelled from the spec: `alist` — "a finite ... sequence ordered
newest-first by engine convention; `limit` bounds count" (section 4.1), the
thread filter applying when a config names a thread. -/
def alist (store : List StoreEntry) (config : Option Json) (limit : Option Json) :
    List StoreEntry :=
  let filtered :=
    match config with
    | some c =>
      match threadIdOf c with
      | some tid => store.filter (fun e => e.thread_id == tid)
      | none => store
    | none => store
  match limit with
  | some (.num (Int.ofNat n)) => filtered.take n
  | _ => filtered

/-- The serialized form `OrjsonResponse` produces for a checkpoint tuple
returned by the store: its config, checkpoint and metadata fields. -/
def entryToJson (e : StoreEntry) : Json :=
  .obj [("config", .obj [("thread_id", .str e.thread_id)]),
        ("checkpoint", e.checkpoint),
        ("metadata", e.metadata)]

/-- The body of an HTTP request as `orjson.loads(await request.body())` leaves
it: `malformed` when the parse raised (the body was not well-formed JSON),
otherwise the decoded value. -/
inductive RequestBody where
  | malformed : RequestBody
  | parsed : Json → RequestBody

/-- An HTTP response of the checkpointer service: status code and JSON body. -/
structure HttpResponse where
  status : Nat
  body : Json

/-- The response an exception escaping an endpoint handler produces:
`run_remote_checkpointer` (src/ipc/server.py lines 135-174) installs no
exception handler and no custom error routes, so Starlette/uvicorn turn any
exception raised inside a handler — a malformed-body parse error, a missing
payload key, a store-level failure — into a 500 Internal Server Error. -/
def serverError : HttpResponse :=
  ⟨500, .null⟩

/-- The `get_tuple` endpoint (lines 136-140): parse the body, read
`payload["config"]`, call `checkpointer.aget_tuple(config=...)` and answer 200
with the tuple, or with null when the store holds no match; any exception on
the way — malformed body, missing key, store failure — escapes to the 500
handler. -/
def get_tuple (store : List StoreEntry) (body : RequestBody) : HttpResponse :=
  match body with
  | .malformed => serverError
  | .parsed payload =>
    match payload.getField "config" with
    | none => serverError
    | some config =>
      match threadIdOf config with
      | none => serverError
      | some tid =>
        match aget_tuple store tid with
        | none => ⟨200, .null⟩
        | some e => ⟨200, entryToJson e⟩

/-- The `list` endpoint (lines 142-152): parse the body, read the optional
config and limit with `payload.get`, collect `checkpointer.alist` and answer
200 with the array; a malformed body escapes to the 500 handler. -/
def list (store : List StoreEntry) (body : RequestBody) : HttpResponse :=
  match body with
  | .malformed => serverError
  | .parsed payload =>
    ⟨200, .arr ((alist store (payload.getField "config") (payload.getField "limit")).map
      entryToJson)⟩

/-- The `put` endpoint (lines 154-162): parse the body, read
`payload["config"]`, `payload["checkpoint"]` and `payload["metadata"]`, call
`checkpointer.aput` and answer 200 with the updated config; any exception —
malformed body, missing key, store failure — escapes to the 500 handler. The
store as extended by the write is returned alongside the response. -/
def put (store : List StoreEntry) (body : RequestBody) : List StoreEntry × HttpResponse :=
  match body with
  | .malformed => (store, serverError)
  | .parsed payload =>
    match payload.getField "config", payload.getField "checkpoint",
        payload.getField "metadata" with
    | some config, some checkpoint, some metadata =>
      match threadIdOf config with
      | none => (store, serverError)
      | some tid =>
        let r := aput store tid checkpoint metadata
        (r.1, ⟨200, r.2⟩)
    | _, _, _ => (store, serverError)

/-- Helper: the Python comparison with "on_custom_event" is false for every
tag value other than that exact string. -/
theorem isCustomTag_false_of_ne (tag : Json) (h : tag ≠ Json.str "on_custom_event") :
    isCustomTag tag = false := by
  cases tag with
  | null => rfl
  | bool b => rfl
  | num n => rfl
  | str s =>
    have hs : s ≠ "on_custom_event" := fun hs => h (by rw [hs])
    simp [isCustomTag, hs]
  | arr xs => rfl
  | obj fs => rfl

/-- C1: along every execution trace of the polling loop, the readiness event
is set exactly when some iteration's GET to the graph socket's /ok and GET to
the checkpointer socket's /ok both succeeded — so a caller blocked on the
readiness wait never observes the ready state before both health checks have
succeeded at least once. -/
theorem C1_ready_only_after_both_ok (trace : List PollOutcome) :
    wait_until_ready trace = true ↔
      ∃ o ∈ trace, graphOkSucceeded o = true ∧ checkpointerOkSucceeded o = true := by
  induction trace with
  | nil => simp [wait_until_ready]
  | cons head rest ih =>
    cases head with
    | graphFail => simp [wait_until_ready, graphOkSucceeded, ih]
    | checkpointerFail => simp [wait_until_ready, checkpointerOkSucceeded, ih]
    | bothOk => simp [wait_until_ready, graphOkSucceeded, checkpointerOkSucceeded]

/-- C2 (the code's actual behavior, contradicting the claim): when the child
process exits with status 1 before its /ok endpoint ever answers — every poll
iteration failing at the graph GET — `run_js_process` returns normally, the
gathered session propagates no error to anyone, and the readiness event is
never set no matter how many poll iterations run: the non-zero exit is
swallowed and the loop polls forever, with no ProcessExitError anywhere. -/
theorem C2_nonzero_exit_swallowed :
    ∀ n : Nat,
      run_js_process 1 = Except.ok () ∧
      (start_js_loop 1 (List.replicate n .graphFail)).errorRaised = none ∧
      (start_js_loop 1 (List.replicate n .graphFail)).readySet = false := by
  intro n
  refine ⟨rfl, rfl, ?_⟩
  show wait_until_ready (List.replicate n .graphFail) = false
  induction n with
  | zero => rfl
  | succ m ih => simpa [List.replicate, wait_until_ready] using ih

/-- C3: for every graph id, input, config and version argument other than
"v2", `astream_events` raises the version error — the spec's
ProtocolVersionError — before any socket connection is opened, and for "v2"
no such error is raised. -/
theorem C3_version_guard :
    (∀ graph_id input config version, version ≠ "v2" →
        astream_events graph_id input config version =
          .versionError "Only v2 of astream_events is supported") ∧
    (∀ graph_id input config msg,
        astream_events graph_id input config "v2" ≠ .versionError msg) := by
  constructor
  · intro graph_id input config version h
    simp [astream_events, h]
  · intro graph_id input config msg
    simp [astream_events]

/-- C3 witness: the guard fires at the concrete unsupported version "v1". -/
theorem C3_version_guard_witness :
    astream_events "agent" .null .null "v1" =
      .versionError "Only v2 of astream_events is supported" :=
  C3_version_guard.1 "agent" .null .null "v1" (by decide)

/-- C4: for every decoded SSE frame, the yielded variant is determined solely
by the frame's `event` field — the tag "on_custom_event" yields a
CustomStreamEvent, every other tag value (any unrecognized name included)
yields a StandardStreamEvent, and the two variants never coincide. -/
theorem C4_sse_event_dispatch (frame tag : Json)
    (h : frame.getField "event" = some tag) :
    (tag = .str "on_custom_event" → decodeSseFrame frame = some (.custom frame)) ∧
    (tag ≠ .str "on_custom_event" → decodeSseFrame frame = some (.standard frame)) ∧
    (∀ f g : Json, StreamEvent.custom f ≠ StreamEvent.standard g) := by
  refine ⟨?_, ?_, ?_⟩
  · intro htag
    subst htag
    simp [decodeSseFrame, h, isCustomTag]
  · intro htag
    simp [decodeSseFrame, h, isCustomTag_false_of_ne tag htag]
  · intro f g hfg
    exact StreamEvent.noConfusion hfg

/-- C4 witness: a frame carrying an event name outside the engine vocabulary
decodes as a StandardStreamEvent. -/
theorem C4_sse_event_dispatch_witness :
    decodeSseFrame (.obj [("event", .str "on_weird"), ("data", .null)]) =
      some (.standard (.obj [("event", .str "on_weird"), ("data", .null)])) :=
  (C4_sse_event_dispatch (.obj [("event", .str "on_weird"), ("data", .null)])
      (.str "on_weird") rfl).2.1
    (by intro hcon; injection hcon with hs; exact absurd hs (by decide))

/-- C5 (the code's actual behavior, contradicting the claim): calling
`get_graph`, `aget_state` or `aupdate_state` returns None — the default value
of a `pass` body — and raises nothing, rather than failing with a
NotImplemented-kind error. -/
theorem C5_deferred_capabilities_return_none :
    get_graph none false = .returned none ∧
    aget_state (.obj []) = .returned none ∧
    aupdate_state (.obj []) .null none = .returned none ∧
    (∀ msg, get_graph none false ≠ .raised msg) ∧
    (∀ msg, aget_state (.obj []) ≠ .raised msg) ∧
    (∀ msg, aupdate_state (.obj []) .null none ≠ .raised msg) := by
  refine ⟨rfl, rfl, rfl, ?_, ?_, ?_⟩ <;>
    exact fun msg hcon => CapabilityResult.noConfusion hcon

/-- C10: for every config and every combination of the optional filter,
before and limit arguments, `aget_state_history` raises — its embedding is
the raised exception, with no connection component at all — and never yields
any state snapshot, unlike `aget_state` on the same client, which returns
None without raising. -/
theorem C10_history_raises_unconditionally :
    ∀ (config : Json) (filter before : Option Json) (limit : Option Int),
      aget_state_history config filter before limit = .raised "Not implemented" ∧
      (∀ snaps, aget_state_history config filter before limit ≠ .returned snaps) ∧
      aget_state config = .returned none := by
  intro config filter before limit
  exact ⟨rfl, fun snaps hcon => CapabilityResult.noConfusion hcon, rfl⟩

/-- C6: for every (config, checkpoint, metadata) request the /put endpoint
accepts (its config addressing a thread), a subsequent /get_tuple request
with the same config answers 200 with the newly written tuple, whose
checkpoint and metadata fields are the very values that were put — hence
serialize to byte-for-byte identical output under the deterministic
rendering. -/
theorem C6_put_get_tuple_roundtrip (store : List StoreEntry)
    (config checkpoint metadata : Json) (tid : String)
    (h : threadIdOf config = some tid) :
    (put store (.parsed (.obj [("config", config), ("checkpoint", checkpoint),
        ("metadata", metadata)]))).2 =
      ⟨200, .obj [("thread_id", .str tid)]⟩ ∧
    get_tuple (put store (.parsed (.obj [("config", config), ("checkpoint", checkpoint),
        ("metadata", metadata)]))).1
        (.parsed (.obj [("config", config)])) =
      ⟨200, entryToJson ⟨tid, checkpoint, metadata⟩⟩ ∧
    (entryToJson ⟨tid, checkpoint, metadata⟩).getField "checkpoint" = some checkpoint ∧
    (entryToJson ⟨tid, checkpoint, metadata⟩).getField "metadata" = some metadata ∧
    ((entryToJson ⟨tid, checkpoint, metadata⟩).getField "checkpoint").map render =
      some (render checkpoint) ∧
    ((entryToJson ⟨tid, checkpoint, metadata⟩).getField "metadata").map render =
      some (render metadata) := by
  have hput : put store (.parsed (.obj [("config", config), ("checkpoint", checkpoint),
      ("metadata", metadata)])) =
      (⟨tid, checkpoint, metadata⟩ :: store, ⟨200, .obj [("thread_id", .str tid)]⟩) := by
    have e : put store (.parsed (.obj [("config", config), ("checkpoint", checkpoint),
        ("metadata", metadata)])) =
        (match threadIdOf config with
          | none => (store, serverError)
          | some t => (⟨t, checkpoint, metadata⟩ :: store,
              ⟨200, .obj [("thread_id", .str t)]⟩)) := rfl
    rw [e, h]
  have hfind : aget_tuple (⟨tid, checkpoint, metadata⟩ :: store) tid =
      some ⟨tid, checkpoint, metadata⟩ := by
    unfold aget_tuple
    rw [List.find?_cons_of_pos]
    exact beq_self_eq_true tid
  refine ⟨?_, ?_, rfl, rfl, rfl, rfl⟩
  · rw [hput]
  · rw [hput]
    show get_tuple (⟨tid, checkpoint, metadata⟩ :: store)
        (.parsed (.obj [("config", config)])) = _
    have e2 : get_tuple (⟨tid, checkpoint, metadata⟩ :: store)
        (.parsed (.obj [("config", config)])) =
        (match threadIdOf config with
          | none => serverError
          | some t =>
            match aget_tuple (⟨tid, checkpoint, metadata⟩ :: store) t with
            | none => ⟨200, .null⟩
            | some en => ⟨200, entryToJson en⟩) := rfl
    rw [e2, h]
    show (match aget_tuple (⟨tid, checkpoint, metadata⟩ :: store) tid with
      | none => (⟨200, .null⟩ : HttpResponse)
      | some en => ⟨200, entryToJson en⟩) = _
    rw [hfind]

/-- C6 witness: a concrete put of checkpoint 7 with metadata on thread t1,
read back by get_tuple from the extended store. -/
theorem C6_put_get_tuple_roundtrip_witness :
    get_tuple (put [] (.parsed (.obj [("config", .obj [("thread_id", .str "t1")]),
        ("checkpoint", .num 7), ("metadata", .obj [("step", .num 0)])]))).1
        (.parsed (.obj [("config", .obj [("thread_id", .str "t1")])])) =
      ⟨200, entryToJson ⟨"t1", .num 7, .obj [("step", .num 0)]⟩⟩ :=
  (C6_put_get_tuple_roundtrip [] (.obj [("thread_id", .str "t1")]) (.num 7)
      (.obj [("step", .num 0)]) "t1" rfl).2.1

/-- C7 counterexample: a request whose body is not well-formed JSON is
answered with status 500 — a server error, not the client-error (4xx) status
the claim states. -/
theorem C7_malformed_is_500_counterexample :
    get_tuple [] .malformed = ⟨500, .null⟩ ∧
    ¬(400 ≤ (get_tuple [] .malformed).status ∧ (get_tuple [] .malformed).status < 500) := by
  refine ⟨rfl, ?_⟩
  intro hcl
  exact Nat.lt_irrefl 500 hcl.2

/-- C7 as amended: a malformed request body on any of the three endpoints is
surfaced as a 500 server error (the handlers install no error handling, so
the parse exception escapes to the framework's 500 handler), and a
store-level failure on a well-formed request — here a config the store cannot
address a thread from — is likewise surfaced as a 500 server error; neither
is silently dropped. -/
theorem C7_error_status_surfacing (store : List StoreEntry) :
    (get_tuple store .malformed).status = 500 ∧
    (list store .malformed).status = 500 ∧
    ((put store .malformed).2).status = 500 ∧
    (∀ config checkpoint metadata, threadIdOf config = none →
      ((put store (.parsed (.obj [("config", config), ("checkpoint", checkpoint),
          ("metadata", metadata)]))).2).status = 500) := by
  refine ⟨rfl, rfl, rfl, ?_⟩
  intro config checkpoint metadata h
  have e : put store (.parsed (.obj [("config", config), ("checkpoint", checkpoint),
      ("metadata", metadata)])) =
      (match threadIdOf config with
        | none => (store, serverError)
        | some t => (⟨t, checkpoint, metadata⟩ :: store,
            ⟨200, .obj [("thread_id", .str t)]⟩)) := rfl
  rw [e, h]
  rfl

/-- C7 witness: a well-formed put body whose config holds no thread_id — the
store-level failure case — is answered with status 500. -/
theorem C7_error_status_surfacing_witness :
    ((put [] (.parsed (.obj [("config", .obj []), ("checkpoint", .null),
        ("metadata", .null)]))).2).status = 500 :=
  (C7_error_status_surfacing []).2.2.2 (.obj []) .null .null rfl

/-- C8 counterexample: launched from a parent environment that already sets
LANGSERVE_GRAPHS (here to "other"), the child sees the parent's value, not
the injected JSON mapping — the dict display puts the injected entry first
and spreads os.environ after it, so the parent overrides it. -/
theorem C8_parent_overrides_counterexample :
    child_env parentWithVar "LANGSERVE_GRAPHS" = some "other" ∧
    "other" ≠ langserveGraphsValue := by
  refine ⟨rfl, ?_⟩
  decide

/-- C8 as amended: provided the parent environment does not already set
LANGSERVE_GRAPHS, the child's environment is exactly the parent environment
extended by that single variable, holding the JSON-encoded mapping from the
logical graph name to its entry-point source location; a variable the parent
does set keeps its parent value in the child. -/
theorem C8_env_extension (os_environ : Env)
    (h : os_environ "LANGSERVE_GRAPHS" = none) :
    child_env os_environ "LANGSERVE_GRAPHS" = some langserveGraphsValue ∧
    (∀ k, k ≠ "LANGSERVE_GRAPHS" → child_env os_environ k = os_environ k) := by
  constructor
  · simp [child_env, h]
  · intro k hk
    cases hos : os_environ k with
    | some v => simp [child_env, hos]
    | none => simp [child_env, hos, hk]

/-- C8 witness: from the empty parent environment the child holds the
injected mapping. -/
theorem C8_env_extension_witness :
    child_env emptyEnv "LANGSERVE_GRAPHS" = some langserveGraphsValue :=
  (C8_env_extension emptyEnv rfl).1

/-- C9: a /get_tuple request whose config names a thread_id with no matching
record in the store — the empty store included — is answered successfully
with status 200 and body null, not with an error status. -/
theorem C9_unknown_thread_yields_null (store : List StoreEntry) (tid : String)
    (h : ∀ e ∈ store, e.thread_id ≠ tid) :
    get_tuple store (.parsed (.obj [("config", .obj [("thread_id", .str tid)])])) =
      ⟨200, .null⟩ := by
  have hfind : aget_tuple store tid = none := by
    unfold aget_tuple
    rw [List.find?_eq_none]
    intro e he
    simpa using h e he
  have e : get_tuple store (.parsed (.obj [("config", .obj [("thread_id", .str tid)])])) =
      (match aget_tuple store tid with
        | none => (⟨200, .null⟩ : HttpResponse)
        | some en => ⟨200, entryToJson en⟩) := rfl
  rw [e, hfind]

/-- C9 witness: get_tuple for thread "unknown" on the empty store answers 200
with null. -/
theorem C9_unknown_thread_yields_null_witness :
    get_tuple [] (.parsed (.obj [("config", .obj [("thread_id", .str "unknown")])])) =
      ⟨200, .null⟩ :=
  C9_unknown_thread_yields_null [] "unknown" (by intro e he; cases he)
